import Mathlib

/-!
Verification of the Insurance-PDF-policy-comparer client against its
specification.  The TypeScript sources under `src/` are shallowly embedded as
Lean definitions; JavaScript numbers are modelled as rationals (`ℚ`) where the
code only performs finite arithmetic, and as an explicit `JSNum` type
(finite / NaN / infinities) where non-finite values matter.
-/

/-- Clause match status, from `src/types/clauseComparison.ts`
(`type ClauseStatus`). -/
inductive ClauseStatus where
  | added
  | removed
  | modified
  | unchanged
deriving DecidableEq, Repr

/-- Clause type, from `src/types/clauseComparison.ts` (`type ClauseType`). -/
inductive ClauseType where
  | allTypes
  | coverage
  | exclusion
  | condition
  | definition
  | warranty
  | extension
  | endorsement
  | subjectivity
  | deductible
deriving DecidableEq, Repr

/-- Token diff, from `src/types/clauseComparison.ts` (`interface TokenDiff`). -/
structure TokenDiff where
  added : List String
  removed : List String
deriving DecidableEq, Repr

/-- A page range of evidence, from `src/types/clauseComparison.ts`
(`interface Evidence`, the per-side `{page_start, page_end}` record). -/
structure PageRange where
  page_start : Nat
  page_end : Nat
deriving DecidableEq, Repr

/-- Evidence, from `src/types/clauseComparison.ts` (`interface Evidence`);
the optional sides become `Option`. -/
structure Evidence where
  a : Option PageRange
  b : Option PageRange
deriving DecidableEq, Repr

/-- Numeric delta attached to a clause match, from
`src/types/clauseComparison.ts` (`interface NumericDelta`). -/
structure NumericDelta where
  field : String
  a_value : Option ℚ
  b_value : Option ℚ
  delta : Option ℚ
  delta_pct : Option ℚ
deriving DecidableEq, Repr

/-- A clause match, from `src/types/clauseComparison.ts`
(`interface ClauseMatch`).  Nullable fields become `Option`; the optional
`clause_type?` field also becomes `Option`. -/
structure ClauseMatch where
  a_id : Option String
  b_id : Option String
  similarity : Option ℚ
  status : ClauseStatus
  token_diff : Option TokenDiff
  numeric_delta : Option NumericDelta
  materiality_score : ℚ
  strictness_delta : Int
  review_required : Bool
  evidence : Evidence
  clause_type : Option ClauseType
deriving DecidableEq, Repr

/-- Materiality range filter values, from `src/types/clauseComparison.ts`
(`FilterState.materialityRange`). -/
inductive MaterialityRange where
  | all
  | high
  | medium
  | low
deriving DecidableEq, Repr

/-- Filter state, from `src/types/clauseComparison.ts`
(`interface FilterState`).  The JavaScript `Set<ClauseStatus>` is modelled as
a list queried by membership, mirroring `Set.has`. -/
structure FilterState where
  statuses : List ClauseStatus
  clauseType : ClauseType
  materialityRange : MaterialityRange
  reviewRequired : Option Bool
deriving DecidableEq, Repr

/-- The predicate applied to each match by `filterClauseMatches`
(`src/utils/clauseFilters.ts`, the arrow function inside `matches.filter`).
Each early `return false` of the source becomes a conjunct. -/
def matchPasses (filters : FilterState) (m : ClauseMatch) : Bool :=
  if ¬ (filters.statuses.contains m.status) then false
  else if filters.clauseType ≠ ClauseType.allTypes ∧
      (m.clause_type = none ∨ m.clause_type ≠ some filters.clauseType) then false
  else if filters.materialityRange ≠ MaterialityRange.all ∧
      ((filters.materialityRange = MaterialityRange.high ∧
          (m.materiality_score < 7/10 ∨ m.materiality_score > 1)) ∨
       (filters.materialityRange = MaterialityRange.medium ∧
          (m.materiality_score < 4/10 ∨ m.materiality_score ≥ 7/10)) ∨
       (filters.materialityRange = MaterialityRange.low ∧
          (m.materiality_score < 0 ∨ m.materiality_score ≥ 4/10))) then false
  else if filters.reviewRequired ≠ none ∧
      some m.review_required ≠ filters.reviewRequired then false
  else true

/-- `filterClauseMatches` from `src/utils/clauseFilters.ts`:
`matches.filter(...)`.  (`matches` is a reserved word in Lean, hence `ms`.) -/
def filterClauseMatches (ms : List ClauseMatch) (filters : FilterState) :
    List ClauseMatch :=
  ms.filter (matchPasses filters)

/-- The initial filter state of `PolicyWordingComparator`
(`src/components/PolicyWordingComparator.tsx`, the `useState<FilterState>`
initializer): all four statuses enabled, clause type `All Types`,
materiality range `all`, `reviewRequired` null. -/
def defaultFilterState : FilterState :=
  { statuses := [ClauseStatus.added, ClauseStatus.removed,
                 ClauseStatus.modified, ClauseStatus.unchanged]
    clauseType := ClauseType.allTypes
    materialityRange := MaterialityRange.all
    reviewRequired := none }

/-!
Numeric policy comparison (`src/unnamed/part_004`, with the data shapes from
`src/types/policy.ts`).  The numeric fields are JavaScript
`number | undefined`; the code paths under verification only perform finite
arithmetic, so they are embedded as `Option ℚ`.
-/

/-- `interface Premium` from `src/types/policy.ts`. -/
structure Premium where
  base : Option ℚ
  fsl : Option ℚ
  gst : Option ℚ
  stamp : Option ℚ
  total : Option ℚ
deriving DecidableEq, Repr

/-- `interface SumsInsured` from `src/types/policy.ts`. -/
structure SumsInsured where
  contents : Option ℚ
  theft_total : Option ℚ
  bi_turnover : Option ℚ
  public_liability : Option ℚ
  property_in_your_control : Option ℚ
deriving DecidableEq, Repr

/-- `interface PolicyData` from `src/types/policy.ts`, restricted to the
fields read by `comparePolicies` (the textual metadata and block fields are
not consulted by the numeric comparison). -/
structure PolicyData where
  sums_insured : SumsInsured
  premium : Premium
deriving DecidableEq, Repr

/-- `interface ComparisonDelta` from `src/types/policy.ts`. -/
structure ComparisonDelta where
  a : Option ℚ
  b : Option ℚ
  delta_abs : Option ℚ
  delta_pct : Option ℚ
deriving DecidableEq, Repr

/-- `calculateDelta` from `src/unnamed/part_004`: coalesces `undefined` to
null, and when both sides are numbers computes `delta_abs = b − a` and
`delta_pct = ((b − a) / a) · 100` unless `a = 0` (then `delta_pct` is
null). -/
def calculateDelta (a b : Option ℚ) : ComparisonDelta :=
  match a, b with
  | some valA, some valB =>
      { a := some valA
        b := some valB
        delta_abs := some (valB - valA)
        delta_pct := if valA ≠ 0 then some ((valB - valA) / valA * 100) else none }
  | valA, valB =>
      { a := valA, b := valB, delta_abs := none, delta_pct := none }

/-- The ten numeric fields compared by `comparePolicies`
(`src/unnamed/part_004`), in the order the source visits them. -/
inductive NumField where
  | contents
  | theft_total
  | bi_turnover
  | public_liability
  | property_in_your_control
  | premium_base
  | premium_fsl
  | premium_gst
  | premium_stamp
  | premium_total
deriving DecidableEq, Repr

/-- Accessor for a numeric field of a `PolicyData`, as read by
`comparePolicies` (`policyX.sums_insured.*` / `policyX.premium.*`). -/
def fieldValue : NumField → PolicyData → Option ℚ
  | NumField.contents, p => p.sums_insured.contents
  | NumField.theft_total, p => p.sums_insured.theft_total
  | NumField.bi_turnover, p => p.sums_insured.bi_turnover
  | NumField.public_liability, p => p.sums_insured.public_liability
  | NumField.property_in_your_control, p => p.sums_insured.property_in_your_control
  | NumField.premium_base, p => p.premium.base
  | NumField.premium_fsl, p => p.premium.fsl
  | NumField.premium_gst, p => p.premium.gst
  | NumField.premium_stamp, p => p.premium.stamp
  | NumField.premium_total, p => p.premium.total

/-- The display name under which `comparePolicies` stores each field's delta
(the string keys of the `result` object in `src/unnamed/part_004`). -/
def fieldName : NumField → String
  | NumField.contents => "Contents"
  | NumField.theft_total => "Theft (Contents & Stock)"
  | NumField.bi_turnover => "Business Interruption (Turnover)"
  | NumField.public_liability => "Public Liability"
  | NumField.property_in_your_control => "Property in Control"
  | NumField.premium_base => "Premium (Base)"
  | NumField.premium_fsl => "Premium (FSL/ESL)"
  | NumField.premium_gst => "Premium (GST)"
  | NumField.premium_stamp => "Premium (Stamp Duty)"
  | NumField.premium_total => "Total Premium"

/-- The fields in the order the source's `if` blocks run. -/
def allNumFields : List NumField :=
  [NumField.contents, NumField.theft_total, NumField.bi_turnover,
   NumField.public_liability, NumField.property_in_your_control,
   NumField.premium_base, NumField.premium_fsl, NumField.premium_gst,
   NumField.premium_stamp, NumField.premium_total]

/-- `comparePolicies` from `src/unnamed/part_004`: for each of the ten fields,
if the field is not `undefined` on at least one side, store
`calculateDelta` of the two sides under the field's display name.  The
JavaScript object built by successive keyed assignments is modelled as an
association list in insertion order. -/
def comparePolicies (policyA policyB : PolicyData) :
    List (String × ComparisonDelta) :=
  (allNumFields.filter (fun f =>
      (fieldValue f policyA).isSome || (fieldValue f policyB).isSome)).map
    (fun f => (fieldName f, calculateDelta (fieldValue f policyA) (fieldValue f policyB)))

/-!
Strictness and its presentation.  The strictness delta itself is computed by
the Python backend, which is not part of `src/`; it is modelled from the
specification.  The presentation of the delta is client code
(`src/components/clause/ClauseDetailView.tsx` and
`src/components/clause/ClauseMatchResults.tsx`).
-/

/-- Modelled from the spec: clause strictness
(`ClauseDNA.strictness ∈ {ABSOLUTE, CONDITIONAL, DISCRETIONARY}`, spec §3);
the backend DNAExtractor that produces it is not under `src/`. -/
inductive Strictness where
  | ABSOLUTE
  | CONDITIONAL
  | DISCRETIONARY
deriving DecidableEq, Repr

/-- Modelled from the spec: the strictness rank used by the Aligner and
DeltaInterpreter (spec §4.6: "strictness_rank ABSOLUTE=2, CONDITIONAL=1,
DISCRETIONARY=0"); the backend is not under `src/`. -/
def strictnessRank : Strictness → Int
  | Strictness.ABSOLUTE => 2
  | Strictness.CONDITIONAL => 1
  | Strictness.DISCRETIONARY => 0

/-- Modelled from the spec: the DeltaInterpreter's strictness delta for a
modified pair (spec §4.7: "strictness_delta = strictness_rank(b) −
strictness_rank(a)"); the backend is not under `src/`. -/
def strictnessDeltaModified (a b : Strictness) : Int :=
  strictnessRank b - strictnessRank a

/-- The caption shown under "Strictness Delta" in
`src/components/clause/ClauseDetailView.tsx` (the nested conditional around
lines 135-141): positive deltas render "More Restrictive", negative
"Less Restrictive", zero "No Change". -/
def strictnessLabelOf (delta : Int) : String :=
  if delta > 0 then "More Restrictive"
  else if delta < 0 then "Less Restrictive"
  else "No Change"

/-- The icons `getStrictnessIcon` can render
(`src/components/clause/ClauseMatchResults.tsx`): a red up arrow, a green
down arrow, or a neutral minus. -/
inductive StrictnessIcon where
  | arrowUpRed
  | arrowDownGreen
  | minusNeutral
deriving DecidableEq, Repr

/-- `getStrictnessIcon` from `src/components/clause/ClauseMatchResults.tsx`. -/
def getStrictnessIcon (delta : Int) : StrictnessIcon :=
  if delta > 0 then StrictnessIcon.arrowUpRed
  else if delta < 0 then StrictnessIcon.arrowDownGreen
  else StrictnessIcon.minusNeutral

/-!
The client's segment table (`SEGMENTS` in
`src/components/clause/ClauseDetailView.tsx`, the `JobProgressPanel`
module) and the spec's fixed 12-segment chain (spec §4.10).
-/

/-- One entry of the client's segment table. -/
structure Segment where
  id : Nat
  name : String
  group : String
deriving DecidableEq, Repr

/-- The `SEGMENTS` constant from the `JobProgressPanel` module
(`src/components/clause/ClauseDetailView.tsx`), verbatim. -/
def SEGMENTS : List Segment :=
  [ { id := 0, name := "Queued", group := "start" },
    { id := 1, name := "Document A: Layout Analysis", group := "docA" },
    { id := 2, name := "Document A: Definitions", group := "docA" },
    { id := 3, name := "Document A: Classification", group := "docA" },
    { id := 4, name := "Document A: Clause DNA", group := "docA" },
    { id := 5, name := "Document B: Layout Analysis", group := "docB" },
    { id := 6, name := "Document B: Definitions", group := "docB" },
    { id := 7, name := "Document B: Classification", group := "docB" },
    { id := 8, name := "Document B: Clause DNA", group := "docB" },
    { id := 9, name := "Semantic Alignment", group := "compare" },
    { id := 10, name := "Delta Interpretation", group := "compare" },
    { id := 11, name := "Narrative Summary", group := "compare" } ]

/-- Which document a per-document pipeline stage works on. -/
inductive DocSide where
  | A
  | B
deriving DecidableEq, Repr

/-- The kinds of stage in the spec's fixed segment chain (spec §4.10). -/
inductive SpecStage where
  | queued
  | layout (d : DocSide)
  | definitions (d : DocSide)
  | classification (d : DocSide)
  | dna (d : DocSide)
  | alignment
  | deltaInterpretation
  | summary
deriving DecidableEq, Repr

/-- The spec's fixed segment chain, in order (spec §4.10: 0 Queued; 1-4
A: Layout, Definitions, Classification, DNA; 5-8 the same for B; 9
Alignment; 10 Delta; 11 Summary). -/
def specSegmentChain : List SpecStage :=
  [ SpecStage.queued,
    SpecStage.layout DocSide.A, SpecStage.definitions DocSide.A,
    SpecStage.classification DocSide.A, SpecStage.dna DocSide.A,
    SpecStage.layout DocSide.B, SpecStage.definitions DocSide.B,
    SpecStage.classification DocSide.B, SpecStage.dna DocSide.B,
    SpecStage.alignment, SpecStage.deltaInterpretation, SpecStage.summary ]

/-- Does `pat` occur as a contiguous run of `l`?  (Helper for
`containsSub`.) -/
def containsSubAux (pat : List Char) : List Char → Bool
  | [] => pat.isEmpty
  | c :: cs => pat.isPrefixOf (c :: cs) || containsSubAux pat cs

/-- Substring test (JavaScript `String.includes`), on the underlying
character lists so that it evaluates inside the kernel. -/
def containsSub (s pat : String) : Bool :=
  containsSubAux pat.data s.data

/-- Reads a client segment name as a spec stage, by the stage keywords of the
segment names: the document side from "Document A"/"Document B", the stage
kind from "Layout"/"Definitions"/"Classification"/"DNA", and the three pair
stages from "Alignment"/"Delta"/"Summary". -/
def stageOfName (n : String) : Option SpecStage :=
  if n = "Queued" then some SpecStage.queued
  else
    let side : Option DocSide :=
      if containsSub n "Document A" then some DocSide.A
      else if containsSub n "Document B" then some DocSide.B
      else none
    match side with
    | some d =>
        if containsSub n "Layout" then some (SpecStage.layout d)
        else if containsSub n "Definitions" then some (SpecStage.definitions d)
        else if containsSub n "Classification" then some (SpecStage.classification d)
        else if containsSub n "DNA" then some (SpecStage.dna d)
        else none
    | none =>
        if containsSub n "Alignment" then some SpecStage.alignment
        else if containsSub n "Delta" then some SpecStage.deltaInterpretation
        else if containsSub n "Summary" then some SpecStage.summary
        else none

/-!
PDF upload validation (`src/components/PolicyUpload.tsx` and the
`ClauseComparerUpload` component in `src/unnamed/part_000`).
-/

/-- `String.endsWith`, on the underlying character lists so that it
evaluates inside the kernel. -/
def jsEndsWith (s suffix : String) : Bool :=
  suffix.data.isSuffixOf s.data

/-- A browser `File` as consulted by the upload handlers: its MIME type
(`file.type`; `type` is reserved in Lean, hence `fileType`) and name. -/
structure JSFile where
  fileType : String
  name : String
deriving DecidableEq, Repr

/-- The PDF check both handlers perform: MIME type `application/pdf` or a
file name ending in `.pdf`. -/
def isPdfFile (f : JSFile) : Bool :=
  f.fileType == "application/pdf" || jsEndsWith f.name ".pdf"

/-- What `handleFileSelect` (`src/components/PolicyUpload.tsx`) does with the
selected file before any network activity: nothing when no file was picked,
an immediate error message for a non-PDF, or a parse request
(`parsePolicyPDFViaPython(file)`) for a PDF. -/
inductive UploadAction where
  | noAction
  | rejectInvalid (message : String)
  | parseRequest (f : JSFile)
deriving DecidableEq, Repr

/-- `handleFileSelect` from `src/components/PolicyUpload.tsx`: takes
`event.target.files?.[0]`; returns early when absent; sets the error
"Please upload a PDF file" and returns when the file is not a PDF
(`file.type !== 'application/pdf' && !file.name.endsWith('.pdf')`);
otherwise submits the file for parsing. -/
def handleFileSelect (file : Option JSFile) : UploadAction :=
  match file with
  | none => UploadAction.noAction
  | some f =>
      if f.fileType != "application/pdf" && !(jsEndsWith f.name ".pdf") then
        UploadAction.rejectInvalid "Please upload a PDF file"
      else
        UploadAction.parseRequest f

/-- What the `ClauseComparerUpload` handlers (`src/unnamed/part_000`) do with
a selection: accept the file (calling `onFileASelect`/`onFileBSelect`, which
stores it for the later compare submission) or silently do nothing. -/
inductive SelectAction where
  | noSelect
  | selectFile (f : JSFile)
deriving DecidableEq, Repr

/-- `handleFileAChange` from `src/unnamed/part_000` (`handleFileBChange` is
identical): accepts `event.target.files?.[0]` exactly when it exists and
`file.type === 'application/pdf' || file.name.endsWith('.pdf')`. -/
def handleFileAChange (file : Option JSFile) : SelectAction :=
  match file with
  | none => SelectAction.noSelect
  | some f =>
      if f.fileType == "application/pdf" || jsEndsWith f.name ".pdf" then
        SelectAction.selectFile f
      else
        SelectAction.noSelect

/-!
The job progress subscriber (`JobProgressPanel` in
`src/components/clause/ClauseDetailView.tsx`): the `status` / `progress`
React state and how an incoming WebSocket frame updates them.
-/

/-- The fields of the `JobStatus` record (`src/utils/pythonApiClient.ts`)
that the progress panel's frame handler reads and writes.  `current_segment`
is a required number on `JobStatus`, hence not an `Option`. -/
structure JobStatusState where
  status : String
  current_segment : Nat
  current_segment_name : String
  progress_pct : ℚ
  error_message : Option String
deriving DecidableEq, Repr

/-- A progress frame (`interface JobProgress` in
`src/utils/pythonApiClient.ts`); the optional fields become `Option`. -/
structure JobProgress where
  type : String
  job_id : String
  status : String
  segment : Option Nat
  segment_name : Option String
  progress_pct : Option ℚ
  error_message : Option String
deriving DecidableEq, Repr

/-- The subscriber's per-job state in `JobProgressPanel`: the `status` and
`progress` `useState` pairs (both start as null). -/
structure SubscriberState where
  status : Option JobStatusState
  progress : Option JobProgress
deriving DecidableEq, Repr

/-- The `onProgress` callback of `JobProgressPanel`
(`subscribeToJobProgress(jobId, (progressUpdate) => ...)`): stores the frame
in `progress`, and merges it into `status` when `status` is non-null —
each field falls back to the previous value only when the frame omits it
(`progressUpdate.segment ?? prev.current_segment`, etc.). -/
def processFrame (s : SubscriberState) (frame : JobProgress) : SubscriberState :=
  { progress := some frame
    status :=
      match s.status with
      | none => none
      | some prev =>
          some { prev with
                 status := frame.status
                 current_segment := frame.segment.getD prev.current_segment
                 current_segment_name :=
                   (frame.segment_name).getD prev.current_segment_name
                 progress_pct := (frame.progress_pct).getD prev.progress_pct
                 error_message :=
                   match frame.error_message with
                   | some e => some e
                   | none => prev.error_message } }

/-- The segment id the panel holds and renders
(`const currentSegment = status?.current_segment ?? progress?.segment ?? 0`). -/
def heldSegment (s : SubscriberState) : Nat :=
  match s.status with
  | some st => st.current_segment
  | none =>
      match s.progress with
      | some p => p.segment.getD 0
      | none => 0

/-!
JSON-shaped values and JavaScript numbers, for the parts of the client that
normalise untyped API payloads (`src/utils/pythonApiClient.ts`).
-/

/-- A JavaScript number: either a finite value (embedded as a rational) or
one of the non-finite values `NaN`, `Infinity`, `-Infinity`. -/
inductive JSNum where
  | finite (q : ℚ)
  | nan
  | posInf
  | negInf
deriving DecidableEq, Repr

/-- `Number.isFinite`. -/
def JSNum.isFinite : JSNum → Bool
  | JSNum.finite _ => true
  | _ => false

/-- An arbitrary JavaScript value of JSON shape, plus `undefined`. -/
inductive JSValue where
  | undef
  | jsNull
  | boolean (b : Bool)
  | num (n : JSNum)
  | str (s : String)
  | arr (xs : List JSValue)
  | obj (fields : List (String × JSValue))

/-- Optionally-chained property access `v?.k`: `undefined` when the receiver
is nullish or has no such property; JSON primitives have none of the
properties the client reads. -/
def JSValue.getField : JSValue → String → JSValue
  | JSValue.obj fields, k =>
      match fields.lookup k with
      | some v => v
      | none => JSValue.undef
  | _, _ => JSValue.undef

/-- Is a value nullish (`null` or `undefined`), as tested by `??`. -/
def JSValue.isNullish : JSValue → Bool
  | JSValue.undef => true
  | JSValue.jsNull => true
  | _ => false

/-- The nullish-coalescing operator `a ?? b`. -/
def nullishOr (a b : JSValue) : JSValue :=
  if a.isNullish then b else a

/-- JavaScript truthiness test (for `!policyData.raw_text` and
`combinedText || undefined`). -/
def JSValue.isFalsy : JSValue → Bool
  | JSValue.undef => true
  | JSValue.jsNull => true
  | JSValue.boolean b => !b
  | JSValue.num (JSNum.finite q) => q == 0
  | JSValue.num JSNum.nan => true
  | JSValue.num _ => false
  | JSValue.str s => s == ""
  | _ => false

/-- `parseOptionalNumber` from `src/utils/pythonApiClient.ts`.  The `Number()`
string conversion is kept abstract as a parameter `toNumber` (its exact
parsing rules do not matter: only `Number.isFinite` gates acceptance). -/
def parseOptionalNumber (toNumber : String → JSNum) (value : JSValue) :
    Option JSNum :=
  match value with
  | JSValue.num n => if n.isFinite then some n else none
  | JSValue.str s =>
      let parsed := toNumber s
      if parsed.isFinite then some parsed else none
  | _ => none

/-- The `sums_insured` record of a normalised `PolicyData`
(`src/utils/pythonApiClient.ts`); each field is a JavaScript
`number | undefined`, kept as `Option JSNum` so that non-finite numbers are
representable. -/
structure SumsInsuredJS where
  contents : Option JSNum
  theft_total : Option JSNum
  bi_turnover : Option JSNum
  public_liability : Option JSNum
  property_in_your_control : Option JSNum
deriving DecidableEq, Repr

/-- The `premium` record of a normalised `PolicyData`. -/
structure PremiumJS where
  base : Option JSNum
  fsl : Option JSNum
  gst : Option JSNum
  stamp : Option JSNum
  total : Option JSNum
deriving DecidableEq, Repr

/-- The `PolicyData` value built by `normalisePolicyData`
(`src/utils/pythonApiClient.ts`).  The untyped metadata fields stay
`JSValue`; the ten numeric fields are `Option JSNum`. -/
structure PolicyDataJS where
  policy_year : JSValue
  insurer : JSValue
  insured : JSValue
  policy_number : JSValue
  period_of_insurance : JSValue
  sums_insured : SumsInsuredJS
  premium : PremiumJS
  raw_text : JSValue
  blocks : Option (List JSValue)

/-- Unchained property access `v.k` (no `?.`): throws a `TypeError` —
modelled as `none` — when the receiver is null or undefined; otherwise reads
like `getField`. -/
def JSValue.getFieldStrict (v : JSValue) (k : String) : Option JSValue :=
  if v.isNullish then none else some (v.getField k)

/-- The callback `.map((block) => (typeof block.text === 'string' ?
block.text.trim() : ''))` of `normalisePolicyData`
(`src/utils/pythonApiClient.ts` line 94), run left to right over the blocks
array.  The access `block.text` is NOT optionally chained in the source, so
a nullish element throws a `TypeError` (`none`) at that point. -/
def blockTexts : List JSValue → Option (List String)
  | [] => some []
  | block :: rest =>
      match block.getFieldStrict "text" with
      | none => none
      | some t =>
          (blockTexts rest).map (fun tail =>
            (match t with
             | JSValue.str s => s.trim
             | _ => "") :: tail)

/-- The trailing `if (Array.isArray(data?.blocks))` block of
`normalisePolicyData` (`src/utils/pythonApiClient.ts`): when `data.blocks`
is an array it is stored, and if `raw_text` is still falsy the blocks'
trimmed non-empty `text` fields are joined with blank lines (an empty join
stays `undefined`).  Only `blocks` and `raw_text` are written — but the
unguarded `block.text` access inside the map throws on a nullish block
element, so the whole function can throw (`none`).  (The source stores
`blocks` before testing `!policyData.raw_text`; the blocks write does not
affect `raw_text`, so the test reads the incoming `raw_text`.) -/
def applyBlocksRawText (data : JSValue) (policyData : PolicyDataJS) :
    Option PolicyDataJS :=
  match data.getField "blocks" with
  | JSValue.arr xs =>
      if policyData.raw_text.isFalsy then
        match blockTexts xs with
        | none => none
        | some pieces =>
            let combinedText :=
              String.intercalate "\n\n" (pieces.filter (fun s => s ≠ ""))
            some { policyData with
                   blocks := some xs
                   raw_text :=
                     if combinedText == "" then JSValue.undef
                     else JSValue.str combinedText }
      else some { policyData with blocks := some xs }
  | _ => some policyData

/-- `normalisePolicyData` from `src/utils/pythonApiClient.ts` (lines 59-102):
resolves each source with `data?.f ?? metadata?.f`, parses the ten numeric
fields through `parseOptionalNumber`, then runs the blocks/raw-text
post-processing (which can throw, hence the `Option` result). -/
def normalisePolicyData (toNumber : String → JSNum) (data : JSValue) :
    Option PolicyDataJS :=
  let metadata := nullishOr (data.getField "metadata") (JSValue.obj [])
  let sumsInsuredSource :=
    nullishOr (nullishOr (data.getField "sums_insured")
      (metadata.getField "sums_insured")) (JSValue.obj [])
  let premiumSource :=
    nullishOr (nullishOr (data.getField "premium")
      (metadata.getField "premium")) (JSValue.obj [])
  let policyData : PolicyDataJS :=
    { policy_year :=
        nullishOr (nullishOr (data.getField "policy_year")
          (metadata.getField "policy_year")) JSValue.undef
      insurer :=
        nullishOr (nullishOr (data.getField "insurer")
          (metadata.getField "insurer")) JSValue.undef
      insured :=
        nullishOr (nullishOr (data.getField "insured")
          (metadata.getField "insured")) JSValue.undef
      policy_number :=
        nullishOr (nullishOr (data.getField "policy_number")
          (metadata.getField "policy_number")) JSValue.undef
      period_of_insurance :=
        nullishOr (nullishOr (data.getField "period_of_insurance")
          (metadata.getField "period_of_insurance")) JSValue.undef
      sums_insured :=
        { contents :=
            parseOptionalNumber toNumber (sumsInsuredSource.getField "contents")
          theft_total :=
            parseOptionalNumber toNumber (sumsInsuredSource.getField "theft_total")
          bi_turnover :=
            parseOptionalNumber toNumber (sumsInsuredSource.getField "bi_turnover")
          public_liability :=
            parseOptionalNumber toNumber
              (sumsInsuredSource.getField "public_liability")
          property_in_your_control :=
            parseOptionalNumber toNumber
              (sumsInsuredSource.getField "property_in_your_control") }
      premium :=
        { base := parseOptionalNumber toNumber (premiumSource.getField "base")
          fsl := parseOptionalNumber toNumber (premiumSource.getField "fsl")
          gst := parseOptionalNumber toNumber (premiumSource.getField "gst")
          stamp := parseOptionalNumber toNumber (premiumSource.getField "stamp")
          total := parseOptionalNumber toNumber (premiumSource.getField "total") }
      raw_text :=
        nullishOr (nullishOr (data.getField "raw_text")
          (metadata.getField "raw_text")) JSValue.undef
      blocks := none }
  applyBlocksRawText data policyData

/-!
`getJobResult` (`src/utils/pythonApiClient.ts`, lines 224-238).
-/

/-- An HTTP response as consulted by `getJobResult`: its status code and the
JSON body that `response.json()` would produce. -/
structure HttpResponse where
  status : Nat
  body : JSValue

/-- The two ways `getJobResult` throws: a still-processing error built from
the 202 body (the current `Job` record, whose `progress_pct` is interpolated
into the message), or a failure built from the error body's `detail`. -/
inductive JobResultError where
  | stillProcessing (currentJob : JSValue)
  | requestFailed (errorBody : JSValue)

/-- `Response.ok` of the Fetch API: status in the inclusive range 200-299. -/
def responseOk (status : Nat) : Bool :=
  200 ≤ status && status ≤ 299

/-- `getJobResult` from `src/utils/pythonApiClient.ts`: on status 202 it
throws carrying the current job (`Job still processing: ...% complete`);
on any other non-ok status it throws the error detail; otherwise it returns
the parsed body as the `UCCComparisonResult`. -/
def getJobResult (response : HttpResponse) : Except JobResultError JSValue :=
  if response.status = 202 then
    Except.error (JobResultError.stillProcessing response.body)
  else if !(responseOk response.status) then
    Except.error (JobResultError.requestFailed response.body)
  else
    Except.ok response.body

/-!
The Aligner's construction of the `matches` list.  The Aligner runs in the
Python backend, which is not part of `src/`; it is modelled from the
specification (§4.6).
-/

/-- Modelled from the spec: the Aligner's ε (spec §4.6, ε = 1e-4); the
backend is not under `src/`. -/
def alignerEpsilon : ℚ := 1/10000

/-- Modelled from the spec: the `ClauseMatch` the Aligner produces for a
matched pair `(a, b)` with similarity `sim` (spec §4.6: "every matched pair
`(a,b)` with `sim ≥ 1.0 − ε` becomes `unchanged`; otherwise `modified`");
both ids are set and the similarity is recorded.  The DeltaInterpreter later
fills materiality, strictness delta, diffs and evidence; those fields are
initialised neutrally here.  The backend is not under `src/`. -/
def mkMatchedPair (aid bid : String) (sim : ℚ) : ClauseMatch :=
  { a_id := some aid
    b_id := some bid
    similarity := some sim
    status :=
      if sim ≥ 1 - alignerEpsilon then ClauseStatus.unchanged
      else ClauseStatus.modified
    token_diff := none
    numeric_delta := none
    materiality_score := 0
    strictness_delta := 0
    review_required := false
    evidence := { a := none, b := none }
    clause_type := none }

/-- Modelled from the spec: the `ClauseMatch` for an A-clause left unmatched
(spec §4.6: "every A-clause left unmatched becomes `removed`"; §3: the
similarity of an added/removed match is null).  The backend is not under
`src/`. -/
def mkRemovedMatch (aid : String) : ClauseMatch :=
  { a_id := some aid
    b_id := none
    similarity := none
    status := ClauseStatus.removed
    token_diff := none
    numeric_delta := none
    materiality_score := 0
    strictness_delta := 0
    review_required := false
    evidence := { a := none, b := none }
    clause_type := none }

/-- Modelled from the spec: the `ClauseMatch` for a B-clause left unmatched
(spec §4.6: "every B-clause left unmatched becomes `added`").  The backend
is not under `src/`. -/
def mkAddedMatch (bid : String) : ClauseMatch :=
  { a_id := none
    b_id := some bid
    similarity := none
    status := ClauseStatus.added
    token_diff := none
    numeric_delta := none
    materiality_score := 0
    strictness_delta := 0
    review_required := false
    evidence := { a := none, b := none }
    clause_type := none }

/-- Modelled from the spec: the full `matches` list a `ComparisonResult`
carries, assembled from the Aligner's one-to-one matching: one entry per
matched pair, one `removed` entry per unmatched A-clause, one `added` entry
per unmatched B-clause (spec §4.6).  The final §4.6 sort permutes this list
and cannot change any per-element property.  The backend is not under
`src/`. -/
def assembleMatches (pairs : List (String × String × ℚ))
    (unmatchedA unmatchedB : List String) : List ClauseMatch :=
  pairs.map (fun p => mkMatchedPair p.1 p.2.1 p.2.2) ++
    unmatchedA.map mkRemovedMatch ++ unmatchedB.map mkAddedMatch

/-!
Predicates and concrete example inputs used by the theorems below.
-/

/-- The `ClauseMatch` invariant of spec §3/§8: `added` iff a-side null and
b-side non-null; `removed` iff a-side non-null and b-side null; `modified`
or `unchanged` implies both non-null; `similarity` null iff the status is
`added` or `removed`. -/
def matchInvariant (m : ClauseMatch) : Prop :=
  (m.status = ClauseStatus.added ↔ m.a_id = none ∧ m.b_id ≠ none) ∧
  (m.status = ClauseStatus.removed ↔ m.a_id ≠ none ∧ m.b_id = none) ∧
  ((m.status = ClauseStatus.modified ∨ m.status = ClauseStatus.unchanged) →
    m.a_id ≠ none ∧ m.b_id ≠ none) ∧
  (m.similarity = none ↔
    (m.status = ClauseStatus.added ∨ m.status = ClauseStatus.removed))

/-- A JavaScript `number | undefined` slot holds a finite number or is
`undefined` — never `NaN` or an infinity. -/
def finiteOrUndefined (o : Option JSNum) : Prop :=
  o = none ∨ ∃ q : ℚ, o = some (JSNum.finite q)

/-- All ten numeric fields of a normalised `PolicyData` (five sums insured,
five premium components) are finite-or-undefined. -/
def allNumericFieldsFinite (p : PolicyDataJS) : Prop :=
  finiteOrUndefined p.sums_insured.contents ∧
  finiteOrUndefined p.sums_insured.theft_total ∧
  finiteOrUndefined p.sums_insured.bi_turnover ∧
  finiteOrUndefined p.sums_insured.public_liability ∧
  finiteOrUndefined p.sums_insured.property_in_your_control ∧
  finiteOrUndefined p.premium.base ∧
  finiteOrUndefined p.premium.fsl ∧
  finiteOrUndefined p.premium.gst ∧
  finiteOrUndefined p.premium.stamp ∧
  finiteOrUndefined p.premium.total

/-- Example subscriber state: a job freshly polled at segment 0. -/
def exampleHeldState : SubscriberState :=
  { status := some { status := "RUNNING", current_segment := 0,
                     current_segment_name := "Queued", progress_pct := 0,
                     error_message := none }
    progress := none }

/-- Example progress frame announcing segment `k`. -/
def exampleFrameSeg (k : Nat) : JobProgress :=
  { type := "progress", job_id := "job-1", status := "RUNNING",
    segment := some k, segment_name := none, progress_pct := none,
    error_message := none }

/-- Example policy pair: contents sum insured drops from 10,000,000 to
5,000,000; everything else absent. -/
def examplePolicyA : PolicyData :=
  { sums_insured := { contents := some 10000000, theft_total := none,
                      bi_turnover := none, public_liability := none,
                      property_in_your_control := none }
    premium := { base := none, fsl := none, gst := none, stamp := none,
                 total := none } }

/-- The B side of the example policy pair. -/
def examplePolicyB : PolicyData :=
  { sums_insured := { contents := some 5000000, theft_total := none,
                      bi_turnover := none, public_liability := none,
                      property_in_your_control := none }
    premium := { base := none, fsl := none, gst := none, stamp := none,
                 total := none } }

/-- An example non-PDF selection. -/
def exampleTextFile : JSFile :=
  { fileType := "text/plain", name := "notes.txt" }

/-- An example clause match sitting exactly on the 0.7 materiality
boundary. -/
def exampleBoundaryMatch : ClauseMatch :=
  { a_id := some "a1", b_id := some "b1", similarity := some (9/10),
    status := ClauseStatus.modified, token_diff := none,
    numeric_delta := none, materiality_score := 7/10, strictness_delta := 0,
    review_required := false, evidence := { a := none, b := none },
    clause_type := none }

/-- An example string-to-number backend that never yields a finite value. -/
def exampleToNumber : String → JSNum := fun _ => JSNum.nan

/-- An example API payload whose `contents` field is a non-numeric string. -/
def exampleApiPayload : JSValue :=
  JSValue.obj [("sums_insured", JSValue.obj [("contents", JSValue.str "abc")])]

/-- An example API payload whose `blocks` array contains a null element and
which carries no `raw_text`. -/
def exampleNullBlockPayload : JSValue :=
  JSValue.obj [("blocks", JSValue.arr [JSValue.jsNull])]

/-- The value `normalisePolicyData` produces for `exampleApiPayload`:
everything undefined except the record skeleton. -/
def exampleNormalisedPayload : PolicyDataJS :=
  { policy_year := JSValue.undef, insurer := JSValue.undef,
    insured := JSValue.undef, policy_number := JSValue.undef,
    period_of_insurance := JSValue.undef,
    sums_insured := { contents := none, theft_total := none,
                      bi_turnover := none, public_liability := none,
                      property_in_your_control := none }
    premium := { base := none, fsl := none, gst := none, stamp := none,
                 total := none }
    raw_text := JSValue.undef, blocks := none }

/-!
Theorems.
-/

lemma matchPasses_default (m : ClauseMatch) :
    matchPasses defaultFilterState m = true := by
  have hc : defaultFilterState.statuses.contains m.status = true := by
    cases m.status <;> rfl
  simp [matchPasses, defaultFilterState] at hc ⊢
  simp [hc]

/-- C9: `filterClauseMatches` returns an order-preserving subsequence of its
input for every filter state, and with the comparator's initial filter state
(all four statuses, `All Types`, materiality `all`, review `null`) it
returns the input unchanged. -/
theorem c9_filter_subsequence_identity :
    ∀ (ms : List ClauseMatch),
      (∀ filters : FilterState, (filterClauseMatches ms filters).Sublist ms) ∧
      filterClauseMatches ms defaultFilterState = ms := by
  intro ms
  constructor
  · intro filters
    exact List.filter_sublist ms
  · exact List.filter_eq_self.mpr (fun m _ => matchPasses_default m)

/-- C6: the client's `SEGMENTS` table has exactly 12 entries, their ids are
0 through 11 in increasing order, and their names read, in order, as the
spec's fixed segment chain: Queued; layout, definitions, classification and
DNA for document A, then for document B; then alignment, delta
interpretation and summary. -/
theorem c6_segment_table :
    SEGMENTS.length = 12 ∧
    SEGMENTS.map Segment.id = List.range 12 ∧
    SEGMENTS.map (fun s => stageOfName s.name) = specSegmentChain.map some := by
  refine ⟨rfl, by decide, by decide⟩

/-- C7: both upload handlers accept a selected file exactly when its MIME
type is `application/pdf` or its name ends in `.pdf`; a selection failing
both checks is rejected on the spot (`PolicyUpload` sets the error message,
`ClauseComparerUpload` ignores the selection) and in particular no
`parseRequest` is issued for it. -/
theorem c7_pdf_gate :
    ∀ f : JSFile,
      (handleFileSelect (some f) = UploadAction.parseRequest f ↔
        isPdfFile f = true) ∧
      (handleFileAChange (some f) = SelectAction.selectFile f ↔
        isPdfFile f = true) ∧
      (isPdfFile f = false →
        handleFileSelect (some f) =
          UploadAction.rejectInvalid "Please upload a PDF file" ∧
        handleFileAChange (some f) = SelectAction.noSelect) := by
  intro f
  by_cases h1 : f.fileType = "application/pdf" <;>
    cases h2 : jsEndsWith f.name ".pdf" <;>
      simp [handleFileSelect, handleFileAChange, isPdfFile, h1, h2]

/-- C7 witness: a plain-text selection is rejected by both handlers. -/
theorem c7_witness :
    handleFileSelect (some exampleTextFile) =
      UploadAction.rejectInvalid "Please upload a PDF file" ∧
    handleFileAChange (some exampleTextFile) = SelectAction.noSelect :=
  (c7_pdf_gate exampleTextFile).2.2 (by decide)

/-- C2 counterexample: the tightening ABSOLUTE → CONDITIONAL does have
strictness_delta = −1, but the detail view's caption for that delta is
"Less Restrictive", not "More Restrictive" as the claim requires for a
change that makes the clause more restrictive. -/
theorem c2_counterexample :
    strictnessDeltaModified Strictness.ABSOLUTE Strictness.CONDITIONAL = -1 ∧
    strictnessLabelOf
        (strictnessDeltaModified Strictness.ABSOLUTE Strictness.CONDITIONAL) ≠
      "More Restrictive" := by
  constructor
  · rfl
  · decide

/-- C2 (amended): a modified pair going from ABSOLUTE to CONDITIONAL has
strictness_delta = −1, and the client presents the delta by its sign — a
positive delta (strictness rank rose) as "More Restrictive" with a red up
arrow, a negative delta (rank fell, as in this tightening) as
"Less Restrictive" with a green down arrow. -/
theorem c2_strictness_presentation :
    strictnessDeltaModified Strictness.ABSOLUTE Strictness.CONDITIONAL = -1 ∧
    strictnessLabelOf
        (strictnessDeltaModified Strictness.ABSOLUTE Strictness.CONDITIONAL) =
      "Less Restrictive" ∧
    getStrictnessIcon
        (strictnessDeltaModified Strictness.ABSOLUTE Strictness.CONDITIONAL) =
      StrictnessIcon.arrowDownGreen ∧
    ∀ sa sb : Strictness,
      (strictnessRank sa < strictnessRank sb ↔
        strictnessLabelOf (strictnessDeltaModified sa sb) = "More Restrictive") ∧
      (strictnessRank sb < strictnessRank sa ↔
        strictnessLabelOf (strictnessDeltaModified sa sb) = "Less Restrictive") := by
  refine ⟨rfl, by decide, by decide, ?_⟩
  intro sa sb
  cases sa <;> cases sb <;> constructor <;> decide

/-- C3 counterexample: starting from a polled state at segment 0, a frame
for segment 5 followed by a duplicate-delivery of an earlier frame for
segment 2 leaves the subscriber holding segment 2 — the held segment
decreased. -/
theorem c3_counterexample :
    heldSegment (processFrame exampleHeldState (exampleFrameSeg 5)) = 5 ∧
    heldSegment
        (processFrame (processFrame exampleHeldState (exampleFrameSeg 5))
          (exampleFrameSeg 2)) = 2 ∧
    (2 : Nat) < 5 := by
  refine ⟨rfl, rfl, by norm_num⟩

/-- C3 (amended): the progress panel overwrites rather than maximises — after
processing a frame that carries a segment id, the held segment equals that
frame's segment, whatever was held before (so a frame with a smaller
segment does decrease it); consequently the held segment is non-decreasing
only when the frames themselves arrive with non-decreasing segment ids. -/
theorem c3_held_segment :
    ∀ (s : SubscriberState) (f : JobProgress) (k : Nat),
      f.segment = some k →
      heldSegment (processFrame s f) = k ∧
      (heldSegment s ≤ k →
        heldSegment s ≤ heldSegment (processFrame s f)) := by
  intro s f k hk
  have h : heldSegment (processFrame s f) = k := by
    cases hs : s.status with
    | none => simp [heldSegment, processFrame, hs, hk]
    | some prev => simp [heldSegment, processFrame, hs, hk]
  exact ⟨h, fun hle => h ▸ hle⟩

/-- C3 witness: the amended statement at a concrete state and frame. -/
theorem c3_witness :
    heldSegment (processFrame exampleHeldState (exampleFrameSeg 5)) = 5 :=
  (c3_held_segment exampleHeldState (exampleFrameSeg 5) 5 rfl).1

/-- C1: every `ClauseMatch` the aligner assembly produces satisfies the
status/id/similarity invariant: `added` iff only the B id is present,
`removed` iff only the A id is present, `modified`/`unchanged` have both
ids, and `similarity` is null exactly for `added`/`removed`. -/
theorem c1_aligner_match_invariant :
    ∀ (pairs : List (String × String × ℚ)) (unmatchedA unmatchedB : List String)
      (m : ClauseMatch),
      m ∈ assembleMatches pairs unmatchedA unmatchedB → matchInvariant m := by
  intro pairs unmatchedA unmatchedB m hm
  simp only [assembleMatches, List.mem_append, List.mem_map] at hm
  rcases hm with (⟨p, _, rfl⟩ | ⟨aid, _, rfl⟩) | ⟨bid, _, rfl⟩
  · unfold matchInvariant mkMatchedPair
    by_cases h : p.2.2 ≥ 1 - alignerEpsilon <;> simp [h]
  · unfold matchInvariant mkRemovedMatch
    simp
  · unfold matchInvariant mkAddedMatch
    simp

/-- C1 witness: the invariant at a singleton assembly. -/
theorem c1_witness :
    matchInvariant (mkMatchedPair "a1" "b1" (8/10)) :=
  c1_aligner_match_invariant [("a1", "b1", 8/10)] [] []
    (mkMatchedPair "a1" "b1" (8/10)) (by simp [assembleMatches])

/-- C5: `getJobResult` returns the parsed body exactly when the response is
ok (2xx) and not the still-running 202; a 202 response raises an error
carrying the current job record; any non-ok status (such as 410 after a
purge) raises instead of returning. -/
theorem c5_get_job_result :
    ∀ r : HttpResponse,
      ((∃ v, getJobResult r = Except.ok v) ↔
        (responseOk r.status = true ∧ r.status ≠ 202)) ∧
      (r.status = 202 →
        getJobResult r =
          Except.error (JobResultError.stillProcessing r.body)) ∧
      (responseOk r.status = false → ∃ e, getJobResult r = Except.error e) ∧
      (responseOk r.status = true → r.status ≠ 202 →
        getJobResult r = Except.ok r.body) := by
  intro r
  by_cases h202 : r.status = 202
  · have hok : responseOk r.status = true := by
      rw [h202]; rfl
    simp [getJobResult, h202, hok]
  · cases hok : responseOk r.status <;>
      simp [getJobResult, h202, hok]

/-- C5 witness: a 410 (purged) response raises. -/
theorem c5_witness :
    ∃ e, getJobResult { status := 410, body := JSValue.jsNull } =
      Except.error e :=
  (c5_get_job_result { status := 410, body := JSValue.jsNull }).2.2.1 rfl

lemma fieldName_injective :
    ∀ f g : NumField, fieldName f = fieldName g → f = g := by
  intro f g h
  cases f <;> cases g <;> first | rfl | exact absurd h (by decide)

lemma lookup_comparePolicies (policyA policyB : PolicyData) (f : NumField)
    (l : List NumField) (hf : f ∈ l)
    (hp : ((fieldValue f policyA).isSome || (fieldValue f policyB).isSome) = true) :
    ((l.filter (fun g =>
        (fieldValue g policyA).isSome || (fieldValue g policyB).isSome)).map
      (fun g =>
        (fieldName g,
          calculateDelta (fieldValue g policyA) (fieldValue g policyB)))).lookup
      (fieldName f) =
    some (calculateDelta (fieldValue f policyA) (fieldValue f policyB)) := by
  induction l with
  | nil => cases hf
  | cons g t ih =>
    by_cases hfg : fieldName f = fieldName g
    · have hgf : f = g := fieldName_injective f g hfg
      subst hgf
      simp [List.filter_cons, hp, List.lookup]
    · have hft : f ∈ t := by
        rcases List.mem_cons.mp hf with h | h
        · exact absurd (by rw [h]) hfg
        · exact h
      have hbe : (fieldName f == fieldName g) = false := by
        simpa using hfg
      by_cases hg :
          ((fieldValue g policyA).isSome || (fieldValue g policyB).isSome) = true
      · simp [List.filter_cons, hg, List.lookup, hbe, ih hft]
      · simp only [Bool.not_eq_true] at hg
        simp [List.filter_cons, hg, ih hft]

/-- C4: for each of the ten numeric fields present on at least one side,
`comparePolicies` stores under the field's display name a delta whose `a`
and `b` are the respective values (null when absent); when both sides are
present, `delta_abs = b − a` and `delta_pct = 100·(b − a)/a` unless the A
value is 0; `delta_pct` is null whenever the A value is null or 0; and
`delta_abs` is null whenever either side is null. -/
theorem c4_compare_policies_delta :
    ∀ (policyA policyB : PolicyData) (f : NumField),
      (fieldValue f policyA).isSome ∨ (fieldValue f policyB).isSome →
      ∃ d : ComparisonDelta,
        (comparePolicies policyA policyB).lookup (fieldName f) = some d ∧
        d.a = fieldValue f policyA ∧
        d.b = fieldValue f policyB ∧
        (∀ x y : ℚ, fieldValue f policyA = some x →
          fieldValue f policyB = some y →
          d.delta_abs = some (y - x) ∧
          (x ≠ 0 → d.delta_pct = some (100 * (y - x) / x)) ∧
          (x = 0 → d.delta_pct = none)) ∧
        ((fieldValue f policyA = none ∨ fieldValue f policyB = none) →
          d.delta_abs = none ∧ d.delta_pct = none) ∧
        (fieldValue f policyA = none → d.delta_pct = none) := by
  intro policyA policyB f hpresent
  have hp : ((fieldValue f policyA).isSome || (fieldValue f policyB).isSome) = true := by
    rcases hpresent with h | h <;> simp [h]
  have hmem : f ∈ allNumFields := by cases f <;> decide
  refine ⟨calculateDelta (fieldValue f policyA) (fieldValue f policyB),
    lookup_comparePolicies policyA policyB f allNumFields hmem hp, ?_, ?_, ?_, ?_, ?_⟩
  · cases ha : fieldValue f policyA <;> cases hb : fieldValue f policyB <;>
      simp [calculateDelta]
  · cases ha : fieldValue f policyA <;> cases hb : fieldValue f policyB <;>
      simp [calculateDelta]
  · intro x y hx hy
    rw [hx, hy]
    refine ⟨rfl, ?_, ?_⟩
    · intro hx0
      simp [calculateDelta, hx0]
      ring
    · intro hx0
      simp [calculateDelta, hx0]
  · intro hnull
    rcases hnull with h | h <;> rw [h] <;>
      [skip; cases fieldValue f policyA] <;> simp [calculateDelta]
  · intro h
    rw [h]
    simp [calculateDelta]

/-- C4 witness: the example pair's contents field. -/
theorem c4_witness :
    ∃ d : ComparisonDelta,
      (comparePolicies examplePolicyA examplePolicyB).lookup "Contents" =
        some d ∧
      d.a = some 10000000 ∧ d.b = some 5000000 := by
  obtain ⟨d, hl, ha, hb, -, -, -⟩ :=
    c4_compare_policies_delta examplePolicyA examplePolicyB NumField.contents
      (Or.inl rfl)
  exact ⟨d, hl, by rw [ha]; rfl, by rw [hb]; rfl⟩

lemma matchPasses_high_iff (m : ClauseMatch) :
    matchPasses { defaultFilterState with
        materialityRange := MaterialityRange.high } m = true ↔
      ¬(m.materiality_score < 7/10 ∨ m.materiality_score > 1) := by
  simp [matchPasses, defaultFilterState]
  intro _ _
  cases m.status <;> simp

lemma matchPasses_medium_iff (m : ClauseMatch) :
    matchPasses { defaultFilterState with
        materialityRange := MaterialityRange.medium } m = true ↔
      ¬(m.materiality_score < 4/10 ∨ m.materiality_score ≥ 7/10) := by
  simp [matchPasses, defaultFilterState]
  intro _ _
  cases m.status <;> simp

lemma matchPasses_low_iff (m : ClauseMatch) :
    matchPasses { defaultFilterState with
        materialityRange := MaterialityRange.low } m = true ↔
      ¬(m.materiality_score < 0 ∨ m.materiality_score ≥ 4/10) := by
  simp [matchPasses, defaultFilterState]
  intro _ _
  cases m.status <;> simp

/-- C8: for a match whose materiality score lies in [0,1], the `high` filter
keeps it iff the score is in [0.7, 1], `medium` iff it is in [0.4, 0.7),
`low` iff it is in [0, 0.4), and exactly one of the three keeps it — the
boundary scores 0.4 and 0.7 fall in the higher band. -/
theorem c8_materiality_bands :
    ∀ m : ClauseMatch, 0 ≤ m.materiality_score → m.materiality_score ≤ 1 →
      (matchPasses { defaultFilterState with
          materialityRange := MaterialityRange.high } m = true ↔
        (7/10 ≤ m.materiality_score ∧ m.materiality_score ≤ 1)) ∧
      (matchPasses { defaultFilterState with
          materialityRange := MaterialityRange.medium } m = true ↔
        (4/10 ≤ m.materiality_score ∧ m.materiality_score < 7/10)) ∧
      (matchPasses { defaultFilterState with
          materialityRange := MaterialityRange.low } m = true ↔
        (0 ≤ m.materiality_score ∧ m.materiality_score < 4/10)) ∧
      ((matchPasses { defaultFilterState with
          materialityRange := MaterialityRange.high } m = true ∧
        matchPasses { defaultFilterState with
          materialityRange := MaterialityRange.medium } m = false ∧
        matchPasses { defaultFilterState with
          materialityRange := MaterialityRange.low } m = false) ∨
       (matchPasses { defaultFilterState with
          materialityRange := MaterialityRange.high } m = false ∧
        matchPasses { defaultFilterState with
          materialityRange := MaterialityRange.medium } m = true ∧
        matchPasses { defaultFilterState with
          materialityRange := MaterialityRange.low } m = false) ∨
       (matchPasses { defaultFilterState with
          materialityRange := MaterialityRange.high } m = false ∧
        matchPasses { defaultFilterState with
          materialityRange := MaterialityRange.medium } m = false ∧
        matchPasses { defaultFilterState with
          materialityRange := MaterialityRange.low } m = true)) := by
  intro m h0 h1
  have hH := matchPasses_high_iff m
  have hM := matchPasses_medium_iff m
  have hL := matchPasses_low_iff m
  refine ⟨?_, ?_, ?_, ?_⟩
  · rw [hH, not_or, not_lt, not_lt]
  · rw [hM, not_or, not_lt, not_le]
  · rw [hL, not_or, not_lt, not_le]
  · rcases lt_or_le m.materiality_score (4/10) with h4 | h4
    · refine Or.inr (Or.inr ⟨?_, ?_, ?_⟩)
      · rw [← Bool.not_eq_true, hH]
        intro hc
        push_neg at hc
        linarith
      · rw [← Bool.not_eq_true, hM]
        intro hc
        push_neg at hc
        linarith
      · rw [hL, not_or, not_lt, not_le]
        exact ⟨h0, h4⟩
    · rcases lt_or_le m.materiality_score (7/10) with h7 | h7
      · refine Or.inr (Or.inl ⟨?_, ?_, ?_⟩)
        · rw [← Bool.not_eq_true, hH]
          intro hc
          push_neg at hc
          linarith
        · rw [hM, not_or, not_lt, not_le]
          exact ⟨h4, h7⟩
        · rw [← Bool.not_eq_true, hL]
          intro hc
          push_neg at hc
          linarith
      · refine Or.inl ⟨?_, ?_, ?_⟩
        · rw [hH, not_or, not_lt, not_lt]
          exact ⟨h7, h1⟩
        · rw [← Bool.not_eq_true, hM]
          intro hc
          push_neg at hc
          linarith
        · rw [← Bool.not_eq_true, hL]
          intro hc
          push_neg at hc
          linarith

/-- C8 witness: the boundary score 0.7 is kept by the `high` filter. -/
theorem c8_witness :
    matchPasses { defaultFilterState with
        materialityRange := MaterialityRange.high } exampleBoundaryMatch = true :=
  ((c8_materiality_bands exampleBoundaryMatch
      (by simp [exampleBoundaryMatch]; norm_num)
      (by simp [exampleBoundaryMatch]; norm_num)).1).mpr
    ⟨by simp [exampleBoundaryMatch], by simp [exampleBoundaryMatch]; norm_num⟩

lemma parseOptionalNumber_finiteOrUndefined (t : String → JSNum) (v : JSValue) :
    finiteOrUndefined (parseOptionalNumber t v) := by
  cases v with
  | num n =>
      cases n <;>
        simp [parseOptionalNumber, JSNum.isFinite, finiteOrUndefined]
  | str s =>
      cases ht : t s <;>
        simp [parseOptionalNumber, JSNum.isFinite, finiteOrUndefined, ht]
  | undef => simp [parseOptionalNumber, finiteOrUndefined]
  | jsNull => simp [parseOptionalNumber, finiteOrUndefined]
  | boolean b => simp [parseOptionalNumber, finiteOrUndefined]
  | arr xs => simp [parseOptionalNumber, finiteOrUndefined]
  | obj fields => simp [parseOptionalNumber, finiteOrUndefined]

lemma getFieldStrict_eq_none_iff (v : JSValue) (k : String) :
    v.getFieldStrict k = none ↔ v.isNullish = true := by
  unfold JSValue.getFieldStrict
  split <;> simp_all

lemma blockTexts_eq_none_iff (xs : List JSValue) :
    blockTexts xs = none ↔ ∃ b ∈ xs, b.isNullish = true := by
  induction xs with
  | nil => simp [blockTexts]
  | cons block rest ih =>
      cases hb : block.getFieldStrict "text" with
      | none =>
          have hnull := (getFieldStrict_eq_none_iff block "text").mp hb
          constructor
          · intro _
            exact ⟨block, List.mem_cons_self block rest, hnull⟩
          · intro _
            simp [blockTexts, hb]
      | some t =>
          have hnotnull : block.isNullish = false := by
            cases hn : block.isNullish
            · rfl
            · have h2 := (getFieldStrict_eq_none_iff block "text").mpr hn
              rw [h2] at hb
              exact Option.noConfusion hb
          simp [blockTexts, hb, Option.map_eq_none', ih, hnotnull]

lemma applyBlocksRawText_eq_some (d : JSValue) (p q : PolicyDataJS)
    (h : applyBlocksRawText d p = some q) :
    q.sums_insured = p.sums_insured ∧ q.premium = p.premium := by
  unfold applyBlocksRawText at h
  repeat' split at h
  all_goals
    first
    | exact Option.noConfusion h
    | (simp only [Option.some.injEq] at h
       subst h
       exact ⟨rfl, rfl⟩)

lemma applyBlocksRawText_eq_none_iff (d : JSValue) (p : PolicyDataJS) :
    applyBlocksRawText d p = none ↔
      ∃ xs, d.getField "blocks" = JSValue.arr xs ∧
        p.raw_text.isFalsy = true ∧ ∃ b ∈ xs, b.isNullish = true := by
  unfold applyBlocksRawText
  cases hb : d.getField "blocks" with
  | arr xs =>
      by_cases hf : p.raw_text.isFalsy = true
      · cases hbt : blockTexts xs with
        | none =>
            have hex := (blockTexts_eq_none_iff xs).mp hbt
            simp [hb, hf, hbt, hex]
        | some pieces =>
            have hnex : ¬∃ b ∈ xs, JSValue.isNullish b = true := by
              intro hex
              rw [(blockTexts_eq_none_iff xs).mpr hex] at hbt
              exact Option.noConfusion hbt
            simp [hb, hf, hbt, hnex]
      · simp only [Bool.not_eq_true] at hf
        simp [hb, hf]
  | undef => simp [hb]
  | jsNull => simp [hb]
  | boolean b => simp [hb]
  | num n => simp [hb]
  | str s => simp [hb]
  | obj fields => simp [hb]

/-- C10 counterexample: the claim's totality fails — on the JSON payload
`{"blocks": [null]}` (no `raw_text`), the blocks post-processing
dereferences `block.text` on a null element and throws a `TypeError`
(modelled as `none`), so `normalisePolicyData` does not return a
`PolicyData` at all. -/
theorem c10_counterexample :
    normalisePolicyData exampleToNumber exampleNullBlockPayload = none := rfl

/-- C10 (amended): `normalisePolicyData` throws exactly when `data.blocks`
is an array, the resolved `raw_text` is still falsy, and some element of
the array is nullish (the unguarded `block.text` access); on every other
input it returns, and each of the ten numeric fields of any returned
`PolicyData` is a finite number or undefined — never `NaN` or an infinity;
a string source is accepted only when `Number()` turns it into a finite
value, and any other source (non-numeric, non-finite, or missing) yields
undefined. -/
theorem c10_normalise_policy_data_finite :
    ∀ (toNumber : String → JSNum) (data : JSValue),
      (∀ p : PolicyDataJS, normalisePolicyData toNumber data = some p →
        allNumericFieldsFinite p) ∧
      (normalisePolicyData toNumber data = none ↔
        ∃ xs, data.getField "blocks" = JSValue.arr xs ∧
          (nullishOr (nullishOr (data.getField "raw_text")
              ((nullishOr (data.getField "metadata")
                (JSValue.obj [])).getField "raw_text"))
            JSValue.undef).isFalsy = true ∧
          ∃ b ∈ xs, b.isNullish = true) ∧
      (∀ (s : String) (n : JSNum),
        parseOptionalNumber toNumber (JSValue.str s) = some n →
        n = toNumber s ∧ n.isFinite = true) ∧
      (∀ (v : JSValue) (n : JSNum),
        parseOptionalNumber toNumber v = some n →
        n.isFinite = true ∧
        ((∃ q : ℚ, v = JSValue.num (JSNum.finite q) ∧ n = JSNum.finite q) ∨
         (∃ s : String, v = JSValue.str s ∧ n = toNumber s))) := by
  intro toNumber data
  refine ⟨?_, ?_, ?_, ?_⟩
  · intro p hp
    unfold normalisePolicyData at hp
    obtain ⟨hs, hpr⟩ := applyBlocksRawText_eq_some _ _ _ hp
    unfold allNumericFieldsFinite
    rw [hs, hpr]
    exact ⟨parseOptionalNumber_finiteOrUndefined _ _,
      parseOptionalNumber_finiteOrUndefined _ _,
      parseOptionalNumber_finiteOrUndefined _ _,
      parseOptionalNumber_finiteOrUndefined _ _,
      parseOptionalNumber_finiteOrUndefined _ _,
      parseOptionalNumber_finiteOrUndefined _ _,
      parseOptionalNumber_finiteOrUndefined _ _,
      parseOptionalNumber_finiteOrUndefined _ _,
      parseOptionalNumber_finiteOrUndefined _ _,
      parseOptionalNumber_finiteOrUndefined _ _⟩
  · exact applyBlocksRawText_eq_none_iff data _
  · intro s n h
    unfold parseOptionalNumber at h
    by_cases hf : (toNumber s).isFinite = true
    · simp [hf] at h
      exact ⟨h.symm, h ▸ hf⟩
    · simp [Bool.of_not_eq_true hf] at h
  · intro v n h
    cases v with
    | num k =>
        cases k with
        | finite q =>
            simp [parseOptionalNumber, JSNum.isFinite] at h
            subst h
            exact ⟨rfl, Or.inl ⟨q, rfl, rfl⟩⟩
        | nan => simp [parseOptionalNumber, JSNum.isFinite] at h
        | posInf => simp [parseOptionalNumber, JSNum.isFinite] at h
        | negInf => simp [parseOptionalNumber, JSNum.isFinite] at h
    | str s =>
        unfold parseOptionalNumber at h
        by_cases hf : (toNumber s).isFinite = true
        · simp [hf] at h
          exact ⟨h ▸ hf, Or.inr ⟨s, rfl, h.symm⟩⟩
        · simp [Bool.of_not_eq_true hf] at h
    | undef => simp [parseOptionalNumber] at h
    | jsNull => simp [parseOptionalNumber] at h
    | boolean b => simp [parseOptionalNumber] at h
    | arr xs => simp [parseOptionalNumber] at h
    | obj fields => simp [parseOptionalNumber] at h

/-- C10 witness: a payload whose `contents` is a string that `Number()`
cannot parse does normalise (no blocks array), with all numeric fields
finite-or-undefined; and a finite numeric source is accepted as finite. -/
theorem c10_witness :
    allNumericFieldsFinite exampleNormalisedPayload ∧
    JSNum.isFinite (JSNum.finite 5) = true :=
  ⟨(c10_normalise_policy_data_finite exampleToNumber exampleApiPayload).1
      exampleNormalisedPayload rfl,
   ((c10_normalise_policy_data_finite exampleToNumber exampleApiPayload).2.2.2
      (JSValue.num (JSNum.finite 5)) (JSNum.finite 5) rfl).1⟩
